import Mathlib

/-
A shallow embedding of the kondis repository (Rust): the FTMS data model and
control op codes (src/ftms/mod.rs), the simulated equipment variant
NonBluetoothDevice (src/devices/non_bluetooth_device.rs), and the equipment
factory equipment_type_to_equipment (src/lib.rs).

Modelling conventions:
- Rust i16 values (max_level, rpm, watts) are modelled as Int; the only
  operations performed on them in the embedded code are comparisons, so no
  wrap-around arithmetic arises.
- std::time::Instant is modelled as an Int time point on a monotone clock; a
  method that calls start_time.elapsed() receives the current clock value
  now as an extra argument and computes now - start_time.  Duration
  as_secs gives a Nat via Int.toNat; the cast to u16 in read is the
  explicit % 65536.
- anyhow errors are modelled by the inductive KError; formatted messages are
  kept as strings.
- The float-typed FTMSData fields (f32 / f64 in Rust) are modelled as Int:
  the embedded code only ever stores the default value zero in them and
  performs no float arithmetic.
- println side effects and wire writes are modelled as an explicit effect
  trace returned by every method, so that it is expressible that an
  operation sent no wire command at all.
-/

namespace Kondis

/-- Error taxonomy of the library: range-validation failures, observation of
the shutdown signal during discovery, and transport-level failures.  In the
Rust code these are anyhow errors; messages are kept where the source formats
one. -/
inductive KError where
  | validation (msg : String)
  | cancellation
  | transport (msg : String)
  deriving DecidableEq, Repr

/-- FTMS data structure from src/ftms/mod.rs: speed, cadence, distance are
f32, resistance, calories, heart_rate are f64, power is u8, time is u16.
Float fields are modelled as Int (only the default zero ever occurs), power
as Nat, and time as Nat reduced mod 2^16 where the source casts to u16. -/
structure FTMSData where
  speed : Int
  cadence : Int
  distance : Int
  resistance : Int
  power : Nat
  calories : Int
  heart_rate : Int
  time : Nat
  deriving DecidableEq, Repr

/-- FTMS control operation codes from src/ftms/mod.rs. -/
inductive FTMSControlOpCode where
  | RequestControl
  | TargetPower
  | Start
  | Stop
  | SpinDownControl
  | TargetCadence
  | Success
  deriving DecidableEq, Repr

/-- Discriminant of each FTMSControlOpCode variant, as declared in
src/ftms/mod.rs. -/
def FTMSControlOpCode.toByte : FTMSControlOpCode → Nat
  | .RequestControl => 0x00
  | .TargetPower => 0x05
  | .Start => 0x07
  | .Stop => 0x08
  | .SpinDownControl => 0x13
  | .TargetCadence => 0x14
  | .Success => 0x80

/-- Stop codes from src/ftms/mod.rs, bytes used to communicate a desire to
pause or stop a session. -/
inductive StopCode where
  | Stop
  | Pause
  deriving DecidableEq, Repr

/-- Discriminant of each StopCode variant, as declared in src/ftms/mod.rs. -/
def StopCode.toByte : StopCode → Nat
  | .Stop => 0x01
  | .Pause => 0x02

/-- Observable side effects of an Equipment method: the println calls of the
simulated device, and (for transport-backed variants) writes of encoded
control commands to the wire.  The simulated device never emits a wireSend
effect. -/
inductive Effect where
  | printConnecting (name : String)
  | printDisconnecting (name : String)
  | printSetCadence (name : String) (rpm : Int) (secondsElapsed : Int)
  | printSetPower (name : String) (watts : Int) (secondsElapsed : Int)
  | wireSend (bytes : List Nat)
  deriving DecidableEq, Repr

/-- The struct NonBluetoothDevice from src/devices/non_bluetooth_device.rs:
a name, a max_level bound (i16) and the construction Instant. -/
structure NonBluetoothDevice where
  name : String
  max_level : Int
  start_time : Int
  deriving DecidableEq, Repr

/-- The fixed name string that NonBluetoothDevice::new stores. -/
def nonBluetoothName : String := "some hypothetical non-bluetooth device"

/-- NonBluetoothDevice::new: ignores the shutdown receiver and always
returns Ok with the fixed name, the given max_level, and the current
Instant. -/
def NonBluetoothDevice.new (maxLevel : Int) (_signalSet : Bool) (now : Int) :
    Except KError NonBluetoothDevice :=
  .ok ⟨nonBluetoothName, maxLevel, now⟩

/-- NonBluetoothDevice::connect: prints and returns Ok(true). -/
def NonBluetoothDevice.connect (d : NonBluetoothDevice) :
    Except KError Bool × List Effect :=
  (.ok true, [.printConnecting d.name])

/-- NonBluetoothDevice::disconnect: prints and returns Ok(()). -/
def NonBluetoothDevice.disconnect (d : NonBluetoothDevice) :
    Except KError Unit × List Effect :=
  (.ok (), [.printDisconnecting d.name])

/-- Error message formatted by NonBluetoothDevice::set_target_cadence. -/
def rpmErrMsg (maxLevel : Int) : String :=
  "RPM must be between 1 and " ++ toString maxLevel

/-- Error message formatted by NonBluetoothDevice::set_target_power. -/
def wattsErrMsg (maxLevel : Int) : String :=
  "Watts must be between 1 and " ++ toString maxLevel

/-- NonBluetoothDevice::set_target_cadence: if rpm is outside the inclusive
range 1..=max_level, return the validation error without any side effect;
otherwise compute the elapsed time since construction, print it with the
requested rpm, and return Ok. -/
def NonBluetoothDevice.set_target_cadence (d : NonBluetoothDevice)
    (rpm : Int) (now : Int) : Except KError Unit × List Effect :=
  if ¬ (1 ≤ rpm ∧ rpm ≤ d.max_level) then
    (.error (.validation (rpmErrMsg d.max_level)), [])
  else
    (.ok (), [.printSetCadence d.name rpm (now - d.start_time)])

/-- NonBluetoothDevice::set_target_power: if watts is outside the inclusive
range 1..=max_level, return the validation error without any side effect;
otherwise compute the elapsed time since construction, print it with the
requested watts, and return Ok. -/
def NonBluetoothDevice.set_target_power (d : NonBluetoothDevice)
    (watts : Int) (now : Int) : Except KError Unit × List Effect :=
  if ¬ (1 ≤ watts ∧ watts ≤ d.max_level) then
    (.error (.validation (wattsErrMsg d.max_level)), [])
  else
    (.ok (), [.printSetPower d.name watts (now - d.start_time)])

/-- NonBluetoothDevice::read: always Ok(Some(..)) with every metric field at
its default (zero) and time set to the elapsed whole seconds since
construction cast to u16. -/
def NonBluetoothDevice.read (d : NonBluetoothDevice) (now : Int) :
    Except KError (Option FTMSData) :=
  .ok (some ⟨0, 0, 0, 0, 0, 0, 0, (now - d.start_time).toNat % 65536⟩)

/-- An Equipment method call on the simulated device, with the clock value
at which the call is made where the method reads the clock. -/
inductive DeviceOp where
  | connectOp
  | disconnectOp
  | setCadenceOp (rpm : Int) (now : Int)
  | setPowerOp (watts : Int) (now : Int)
  | readOp (now : Int)
  deriving DecidableEq, Repr

/-- State transition performed by each Equipment method of
NonBluetoothDevice on the receiver struct: connect takes the receiver by
mutable reference but its body assigns no field, and every other method
takes the receiver by shared reference, so each call leaves the struct
exactly as constructed. -/
def applyOp (d : NonBluetoothDevice) : DeviceOp → NonBluetoothDevice
  | .connectOp => d
  | .disconnectOp => d
  | .setCadenceOp _ _ => d
  | .setPowerOp _ _ => d
  | .readOp _ => d

/-- A control command together with its parameter, as in section 3 of the
design: a tagged value, each tag mapping to one FTMS op code.  Success is a
response tag and is never encoded for sending. -/
inductive ControlCommand where
  | RequestControl
  | TargetPower (watts : Int)
  | Start
  | Stop (code : StopCode)
  | SpinDownControl
  | TargetCadence (rpm : Int)
  deriving DecidableEq, Repr

/-- Little-endian encoding of an i16 value into two bytes. -/
def encodeI16LE (v : Int) : List Nat :=
  ((v % 65536).toNat % 256) :: [((v % 65536).toNat / 256) % 256]

/-- Little-endian decoding of two bytes into an i16 value. -/
def decodeI16LE (b0 b1 : Nat) : Int :=
  if b0 % 256 + 256 * (b1 % 256) < 32768 then
    ((b0 % 256 + 256 * (b1 % 256) : Nat) : Int)
  else
    ((b0 % 256 + 256 * (b1 % 256) : Nat) : Int) - 65536

/-- Modelled from the spec: the control protocol encoder of section 4.3 is
part of the bluetooth module, which is not under src/.  Encoding is one
op-code byte (the FTMSControlOpCode discriminants of src/ftms/mod.rs),
followed by a little-endian 2-byte signed value for TargetPower and
TargetCadence and by one stop-code byte for Stop. -/
def ControlCommand.encode : ControlCommand → List Nat
  | .RequestControl => [FTMSControlOpCode.RequestControl.toByte]
  | .TargetPower w => FTMSControlOpCode.TargetPower.toByte :: encodeI16LE w
  | .Start => [FTMSControlOpCode.Start.toByte]
  | .Stop c => [FTMSControlOpCode.Stop.toByte, c.toByte]
  | .SpinDownControl => [FTMSControlOpCode.SpinDownControl.toByte]
  | .TargetCadence r => FTMSControlOpCode.TargetCadence.toByte :: encodeI16LE r

/-- Stop code for a received stop-code byte, if any. -/
def StopCode.fromByte : Nat → Option StopCode
  | 0x01 => some .Stop
  | 0x02 => some .Pause
  | _ => none

/-- Modelled from the spec: the receiving direction of the control protocol
codec of section 4.3, inverse to ControlCommand.encode — the bluetooth
module implementing it is not under src/. -/
def ControlCommand.decode : List Nat → Option ControlCommand
  | [0x00] => some .RequestControl
  | [0x05, b0, b1] => some (.TargetPower (decodeI16LE b0 b1))
  | [0x07] => some .Start
  | [0x08, c] => (StopCode.fromByte c).map ControlCommand.Stop
  | [0x13] => some .SpinDownControl
  | [0x14, b0, b1] => some (.TargetCadence (decodeI16LE b0 b1))
  | _ => none

/-- A peripheral as reported by a transport scan: a name and an identity. -/
structure Peripheral where
  name : String
  identity : String
  deriving DecidableEq, Repr

/-- The transport collaborator environment a transport-backed variant runs
against: the successive scan results of the discovery poll loop (a finite
trace), and whether the transport-level connect, the control grant, and the
telemetry subscription succeed. -/
structure TransportEnv where
  scans : List (List Peripheral)
  connectOk : Bool
  controlGranted : Bool
  subscribeOk : Bool
  deriving DecidableEq, Repr

/-- States of the connection state machine of section 4.2. -/
inductive ConnState where
  | Disconnected
  | Discovering
  | Found
  | ConnectedControlPending
  | ConnectedControlGranted
  | Subscribed
  deriving DecidableEq, Repr

/-- Message of the model artifact error when the finite scan trace ends. -/
def discoveryExhaustedMsg : String := "discovery trace exhausted"

/-- Message of the transport-level connect failure. -/
def connectFailedMsg : String := "transport connect failed"

/-- Modelled from the spec: the discovery poll loop of the connection state
machine (section 4.2) — the bluetooth module implementing it is not under
src/.  Each poll iteration checks the cancellation signal first and aborts
with a cancellation error if it is set; otherwise it filters the scan result
by the variant predicate.  The finite scan trace stands in for the unbounded
loop; exhausting it without the signal set is a transport failure of the
model. -/
def discoverLoop (signalSet : Bool) (pred : Peripheral → Bool) :
    List (List Peripheral) → Except KError Peripheral
  | [] =>
    if signalSet then .error .cancellation
    else .error (.transport discoveryExhaustedMsg)
  | s :: rest =>
    if signalSet then .error .cancellation
    else
      match s.find? pred with
      | some p => .ok p
      | none => discoverLoop signalSet pred rest

/-- A constructed transport-backed bike: the matched peripheral and the
configured max_level. -/
structure TransportBike where
  peripheral : Peripheral
  max_level : Int
  deriving DecidableEq, Repr

/-- Modelled from the spec: construction of a transport-backed variant
(section 4.2) — the bluetooth module implementing it is not under src/.
Runs the discovery loop (cancellation checked first at every poll), then the
transport-level connect, control request and telemetry subscription;
returns the constructed bike or the error, together with the trace of
connection states the machine visited. -/
def transportNew (maxLevel : Int) (signalSet : Bool)
    (pred : Peripheral → Bool) (env : TransportEnv) :
    Except KError TransportBike × List ConnState :=
  match discoverLoop signalSet pred env.scans with
  | .error e => (.error e, [ConnState.Disconnected, ConnState.Discovering])
  | .ok p =>
    if env.connectOk then
      (.ok ⟨p, maxLevel⟩,
        [ConnState.Disconnected, ConnState.Discovering, ConnState.Found,
          ConnState.ConnectedControlPending] ++
        (if env.controlGranted then [ConnState.ConnectedControlGranted] else []) ++
        (if env.subscribeOk then [ConnState.Subscribed] else []))
    else
      (.error (.transport connectFailedMsg),
        [ConnState.Disconnected, ConnState.Discovering, ConnState.Found])

/-- Identity string the real bike variant matches exactly. -/
def iconsoleIdentity : String := "iConsole+0028"

/-- Modelled from the spec: the discovery predicate of the real wireless
bike is an exact identity match. -/
def iconsolePred (p : Peripheral) : Bool := p.identity == iconsoleIdentity

/-- Name marker the debug bike variant looks for as a substring. -/
def consoleMarker : String := "Console"

/-- Modelled from the spec: the discovery predicate of the debug bike
matches any peripheral whose advertised name contains the generic
fitness-console marker. -/
def debugPred (p : Peripheral) : Bool :=
  1 < (p.name.splitOn consoleMarker).length

/-- The enum EquipmentType from src/lib.rs. -/
inductive EquipmentType where
  | Iconsole0028Bike
  | DebugBike
  | NonBluetoothDevice
  deriving DecidableEq, Repr

/-- The closed tagged-variant type standing for the type-erased boxed
Equipment trait object (design note in section 9). -/
inductive EquipmentInstance where
  | iconsole (bike : TransportBike)
  | debug (bike : TransportBike)
  | nonBluetooth (device : NonBluetoothDevice)
  deriving DecidableEq, Repr

/-- The function equipment_type_to_equipment from src/lib.rs: for each
equipment kind, run the variant constructor; if it errored return None,
otherwise Some of the boxed instance.  The two transport-backed
constructors are the spec-modelled transportNew with the variant's
discovery predicate; the simulated one is NonBluetoothDevice.new. -/
def equipment_type_to_equipment (equipmentType : EquipmentType)
    (maxLevel : Int) (signalSet : Bool) (env : TransportEnv) (now : Int) :
    Option EquipmentInstance :=
  match equipmentType with
  | .Iconsole0028Bike =>
    match (transportNew maxLevel signalSet iconsolePred env).1 with
    | .error _ => none
    | .ok e => some (.iconsole e)
  | .DebugBike =>
    match (transportNew maxLevel signalSet debugPred env).1 with
    | .error _ => none
    | .ok e => some (.debug e)
  | .NonBluetoothDevice =>
    match NonBluetoothDevice.new maxLevel signalSet now with
    | .error _ => none
    | .ok e => some (.nonBluetooth e)

/-- Whether the variant constructor selected by the given equipment kind
succeeds on the given arguments: the reference side for the factory
claim. -/
def variantNewOk (equipmentType : EquipmentType) (maxLevel : Int)
    (signalSet : Bool) (env : TransportEnv) (now : Int) : Bool :=
  match equipmentType with
  | .Iconsole0028Bike => (transportNew maxLevel signalSet iconsolePred env).1.isOk
  | .DebugBike => (transportNew maxLevel signalSet debugPred env).1.isOk
  | .NonBluetoothDevice => (NonBluetoothDevice.new maxLevel signalSet now).isOk

/-- Helper: with the cancellation signal set, the discovery loop aborts on
its first poll check, whatever the scan trace holds. -/
theorem discoverLoop_cancelled (pred : Peripheral → Bool)
    (scans : List (List Peripheral)) :
    discoverLoop true pred scans = .error .cancellation := by
  cases scans <;> rfl

/-- Helper: each Equipment method call leaves the simulated device struct
unchanged. -/
theorem applyOp_id (d : NonBluetoothDevice) (op : DeviceOp) :
    applyOp d op = d := by
  cases op <;> rfl

/-- C1: for every rpm or watts value outside the inclusive range
[1, max_level], set_target_cadence and set_target_power on a device carrying
that max_level return the validation error and emit no effect at all:
nothing is printed and no wire command is sent. -/
theorem claim_C1_out_of_range_validation (d : NonBluetoothDevice)
    (v now : Int) (h : ¬ (1 ≤ v ∧ v ≤ d.max_level)) :
    d.set_target_cadence v now =
      (.error (.validation (rpmErrMsg d.max_level)), []) ∧
    d.set_target_power v now =
      (.error (.validation (wattsErrMsg d.max_level)), []) := by
  constructor
  · unfold NonBluetoothDevice.set_target_cadence
    rw [if_pos h]
  · unfold NonBluetoothDevice.set_target_power
    rw [if_pos h]

/-- Witness for C1 at the scenario input of the spec: max_level 10 and
requested value 32. -/
theorem claim_C1_out_of_range_validation_witness :
    (¬ (1 ≤ (32 : Int) ∧ (32 : Int) ≤
      (⟨nonBluetoothName, 10, 0⟩ : NonBluetoothDevice).max_level)) ∧
    ((⟨nonBluetoothName, 10, 0⟩ : NonBluetoothDevice).set_target_cadence 32 5 =
      (.error (.validation (rpmErrMsg 10)), []) ∧
     (⟨nonBluetoothName, 10, 0⟩ : NonBluetoothDevice).set_target_power 32 5 =
      (.error (.validation (wattsErrMsg 10)), [])) :=
  ⟨by decide,
   claim_C1_out_of_range_validation ⟨nonBluetoothName, 10, 0⟩ 32 5 (by decide)⟩

/-- C2: for every rpm and watts inside [1, max_level], set_target_cadence
and set_target_power on the simulated device succeed, and the elapsed time
they report is non-negative and non-decreasing across successive calls on
the same device (with the monotone clock supplying now1 then now2). -/
theorem claim_C2_in_range_succeeds (d : NonBluetoothDevice)
    (rpm watts now1 now2 : Int)
    (hr : 1 ≤ rpm ∧ rpm ≤ d.max_level)
    (hw : 1 ≤ watts ∧ watts ≤ d.max_level)
    (hstart : d.start_time ≤ now1) (hmono : now1 ≤ now2) :
    d.set_target_cadence rpm now1 =
      (.ok (), [.printSetCadence d.name rpm (now1 - d.start_time)]) ∧
    d.set_target_power watts now2 =
      (.ok (), [.printSetPower d.name watts (now2 - d.start_time)]) ∧
    0 ≤ now1 - d.start_time ∧
    now1 - d.start_time ≤ now2 - d.start_time := by
  refine ⟨?_, ?_, by omega, by omega⟩
  · unfold NonBluetoothDevice.set_target_cadence
    rw [if_neg (not_not_intro hr)]
  · unfold NonBluetoothDevice.set_target_power
    rw [if_neg (not_not_intro hw)]

/-- Witness for C2 at the scenario input of the spec: max_level 10, cadence
5 at clock 2, power 7 at clock 3, device constructed at clock 0. -/
theorem claim_C2_in_range_succeeds_witness :
    ((1 ≤ (5 : Int) ∧ (5 : Int) ≤
        (⟨nonBluetoothName, 10, 0⟩ : NonBluetoothDevice).max_level) ∧
     (1 ≤ (7 : Int) ∧ (7 : Int) ≤
        (⟨nonBluetoothName, 10, 0⟩ : NonBluetoothDevice).max_level) ∧
     (⟨nonBluetoothName, 10, 0⟩ : NonBluetoothDevice).start_time ≤ (2 : Int) ∧
     (2 : Int) ≤ (3 : Int)) ∧
    ((⟨nonBluetoothName, 10, 0⟩ : NonBluetoothDevice).set_target_cadence 5 2 =
      (.ok (), [.printSetCadence nonBluetoothName 5 2]) ∧
     (⟨nonBluetoothName, 10, 0⟩ : NonBluetoothDevice).set_target_power 7 3 =
      (.ok (), [.printSetPower nonBluetoothName 7 3]) ∧
     0 ≤ (2 : Int) - 0 ∧ (2 : Int) - 0 ≤ (3 : Int) - 0) :=
  ⟨⟨by decide, by decide, by decide, by decide⟩,
   claim_C2_in_range_succeeds ⟨nonBluetoothName, 10, 0⟩ 5 7 2 3
     (by decide) (by decide) (by decide) (by decide)⟩

/-- Counterexample to C3 as stated: on a device constructed at clock 0 and
read at clock 65536, the elapsed whole seconds are 65536 but the returned
time field is 65536 % 2^16 = 0, because read casts the seconds to u16; so
the time field is not the number of whole seconds elapsed since
construction. -/
theorem claim_C3_counterexample :
    (⟨nonBluetoothName, 10, 0⟩ : NonBluetoothDevice).read 65536 =
      .ok (some ⟨0, 0, 0, 0, 0, 0, 0, 0⟩) ∧
    ((65536 : Int) - 0).toNat ≠ 0 := by
  constructor
  · rfl
  · decide

/-- C3 amended: every read on the simulated device, including on a freshly
constructed one that never connected, returns Ok Some of a record whose
speed, cadence, distance, resistance, power, calories and heart_rate fields
are all zero and whose time field is the non-negative number of whole
seconds elapsed since construction reduced modulo 2^16 (the u16 cast);
read never returns None. -/
theorem claim_C3_read_synthesizes (d : NonBluetoothDevice) (now : Int)
    (h : d.start_time ≤ now) :
    d.read now =
      .ok (some ⟨0, 0, 0, 0, 0, 0, 0, (now - d.start_time).toNat % 65536⟩) ∧
    0 ≤ now - d.start_time :=
  ⟨rfl, by omega⟩

/-- Witness for C3 amended: a device constructed at clock 0 and read at
clock 3. -/
theorem claim_C3_read_synthesizes_witness :
    ((⟨nonBluetoothName, 10, 0⟩ : NonBluetoothDevice).start_time ≤ (3 : Int)) ∧
    ((⟨nonBluetoothName, 10, 0⟩ : NonBluetoothDevice).read 3 =
      .ok (some ⟨0, 0, 0, 0, 0, 0, 0, ((3 : Int) - 0).toNat % 65536⟩) ∧
     0 ≤ (3 : Int) - 0) :=
  ⟨by decide, claim_C3_read_synthesizes ⟨nonBluetoothName, 10, 0⟩ 3 (by decide)⟩

/-- C4: the control op-code tags map to the one-byte values 0x00, 0x05,
0x07, 0x08, 0x13, 0x14, 0x80, and the stop codes are Stop = 0x01 and
Pause = 0x02, as declared in src/ftms/mod.rs. -/
theorem claim_C4_opcode_values :
    FTMSControlOpCode.RequestControl.toByte = 0x00 ∧
    FTMSControlOpCode.TargetPower.toByte = 0x05 ∧
    FTMSControlOpCode.Start.toByte = 0x07 ∧
    FTMSControlOpCode.Stop.toByte = 0x08 ∧
    FTMSControlOpCode.SpinDownControl.toByte = 0x13 ∧
    FTMSControlOpCode.TargetCadence.toByte = 0x14 ∧
    FTMSControlOpCode.Success.toByte = 0x80 ∧
    StopCode.Stop.toByte = 0x01 ∧
    StopCode.Pause.toByte = 0x02 := by
  decide

/-- C5: for every equipment kind and every argument tuple, the factory
returns Some exactly when the selected variant constructor succeeds, and
None when it fails — absence, never a panic. -/
theorem claim_C5_factory_some_iff_new_ok (t : EquipmentType)
    (maxLevel : Int) (signalSet : Bool) (env : TransportEnv) (now : Int) :
    (equipment_type_to_equipment t maxLevel signalSet env now).isSome =
      variantNewOk t maxLevel signalSet env now := by
  cases t <;> unfold equipment_type_to_equipment variantNewOk
  · cases (transportNew maxLevel signalSet iconsolePred env).1 <;> rfl
  · cases (transportNew maxLevel signalSet debugPred env).1 <;> rfl
  · cases NonBluetoothDevice.new maxLevel signalSet now <;> rfl

/-- C6: with the cancellation signal set before discovery begins,
construction of a transport-backed variant fails with the cancellation
error for every discovery predicate (real bike and debug bike alike) and
every transport environment, and the visited state trace is only
Disconnected then Discovering: no Connected state is ever reached. -/
theorem claim_C6_cancel_preempts_connection (maxLevel : Int)
    (pred : Peripheral → Bool) (env : TransportEnv) :
    (transportNew maxLevel true pred env).1 = .error .cancellation ∧
    (transportNew maxLevel true pred env).2 =
      [ConnState.Disconnected, ConnState.Discovering] ∧
    ConnState.ConnectedControlPending ∉ (transportNew maxLevel true pred env).2 ∧
    ConnState.ConnectedControlGranted ∉ (transportNew maxLevel true pred env).2 ∧
    ConnState.Subscribed ∉ (transportNew maxLevel true pred env).2 := by
  have h := discoverLoop_cancelled pred env.scans
  have h2 : (transportNew maxLevel true pred env).2 =
      [ConnState.Disconnected, ConnState.Discovering] := by
    unfold transportNew
    rw [h]
  refine ⟨?_, h2, ?_, ?_, ?_⟩
  · unfold transportNew
    rw [h]
  · rw [h2]; decide
  · rw [h2]; decide
  · rw [h2]; decide

/-- C7: disconnect on the simulated device always returns Ok, including on
a freshly constructed device that never connected, it leaves the device
unchanged, and calling it a second time succeeds just the same. -/
theorem claim_C7_disconnect_idempotent (d : NonBluetoothDevice) :
    d.disconnect.1 = .ok () ∧
    applyOp d .disconnectOp = d ∧
    (applyOp d .disconnectOp).disconnect.1 = .ok () :=
  ⟨rfl, rfl, rfl⟩

/-- C8: encoding TargetPower(150) yields op code 0x05 followed by the
little-endian two-byte signed value 150, and decoding those bytes yields
TargetPower(150) back — the round trip through the codec preserves the
command. -/
theorem claim_C8_targetpower_roundtrip :
    ControlCommand.encode (.TargetPower 150) = [0x05, 150, 0] ∧
    ControlCommand.decode (ControlCommand.encode (.TargetPower 150)) =
      some (.TargetPower 150) := by
  decide

/-- C9: NonBluetoothDevice::new never fails — for every max_level, zero and
negative included, and every shutdown-signal state it returns Ok — so the
factory always returns Some for the NonBluetoothDevice kind even with the
cancellation signal set, while for the real-bike kind with the signal set
the factory returns None. -/
theorem claim_C9_new_never_fails (maxLevel : Int) (signalSet : Bool)
    (env : TransportEnv) (now : Int) :
    (NonBluetoothDevice.new maxLevel signalSet now).isOk = true ∧
    (equipment_type_to_equipment .NonBluetoothDevice maxLevel signalSet env now).isSome
      = true ∧
    (equipment_type_to_equipment .Iconsole0028Bike maxLevel true env now).isSome
      = false := by
  refine ⟨rfl, rfl, ?_⟩
  have h := discoverLoop_cancelled iconsolePred env.scans
  unfold equipment_type_to_equipment transportNew
  rw [h]
  rfl

/-- C10: after any sequence of Equipment method calls on the simulated
device, the struct fields name, max_level and start_time all still hold
their construction values. -/
theorem claim_C10_no_mutation (d : NonBluetoothDevice) (ops : List DeviceOp) :
    (ops.foldl applyOp d).name = d.name ∧
    (ops.foldl applyOp d).max_level = d.max_level ∧
    (ops.foldl applyOp d).start_time = d.start_time := by
  have h : ∀ (e : NonBluetoothDevice), ops.foldl applyOp e = e := by
    induction ops with
    | nil => intro e; rfl
    | cons op rest ih => intro e; rw [List.foldl_cons, applyOp_id]; exact ih e
  rw [h d]
  exact ⟨rfl, rfl, rfl⟩

end Kondis
